import Mathlib

/-!
Formal model of the Ashley Deal Calculator pricing engine.

The definitions below are a shallow embedding of the arithmetic core of
`src/ashley-calculator-v5-fixed.jsx` (imported by `src/main.jsx`) and of the
test helper module `tests/helpers/utils/calculations.js`.  JavaScript numbers
are modelled as rationals (`ℚ`), so every identity proved here is exact over
the underlying arithmetic; the display layer's rounding to cents is outside
the model.  String inputs (price fields, quantity fields) are kept as
`String` and run through models of `parseFloat`/`parseInt` restricted to
plain decimal literals (optional sign, digits, decimal point), which covers
every value the calculator itself produces or its fixtures use.
-/

/-- Digits of a decimal string folded into a natural number,
as done character by character by `parseFloat`/`parseInt`. -/
def digitsToNat (ds : List Char) : Nat :=
  ds.foldl (fun n c => 10 * n + (c.toNat - 48)) 0

/-- Split a character list into (sign, integer digits, fraction digits) of its
longest decimal-literal prefix, mirroring how `parseFloat` consumes input. -/
def decimalSplit (cs : List Char) : Bool × List Char × List Char :=
  let p : Bool × List Char :=
    match cs with
    | '-' :: r => (true, r)
    | '+' :: r => (false, r)
    | _ => (false, cs)
  let intPart := p.2.takeWhile Char.isDigit
  let rest := p.2.drop intPart.length
  let fracPart : List Char :=
    match rest with
    | '.' :: r => r.takeWhile Char.isDigit
    | _ => []
  (p.1, intPart, fracPart)

/-- Model of JavaScript `parseFloat` on plain decimal literals:
`none` models `NaN` (no digit in the leading prefix). -/
def parseFloatJs (s : String) : Option ℚ :=
  let t := decimalSplit s.data
  if t.2.1.isEmpty ∧ t.2.2.isEmpty then none
  else
    let mantissa : ℤ := digitsToNat (t.2.1 ++ t.2.2)
    let signed : ℤ := if t.1 then -mantissa else mantissa
    some ((signed : ℚ) / ((10 : ℚ) ^ t.2.2.length))

/-- Source `parseMoney` from the calculator: strip `$` and `,`, `parseFloat`,
and coerce `NaN` to `0` (the `|| 0` fallback). -/
def parseMoney (s : String) : ℚ :=
  (parseFloatJs (String.mk (s.data.filter (fun c => c ≠ '$' ∧ c ≠ ',')))).getD 0

/-- Model of JavaScript `parseInt` (radix 10) on plain numeric strings:
`none` models `NaN`. -/
def parseIntJs (s : String) : Option ℤ :=
  let p : Bool × List Char :=
    match s.data with
    | '-' :: r => (true, r)
    | '+' :: r => (false, r)
    | _ => (false, s.data)
  let ds := p.2.takeWhile Char.isDigit
  if ds.isEmpty then none
  else
    let n : ℤ := digitsToNat ds
    some (if p.1 then -n else n)

/-- The quantity coercion `parseInt(item.qty) || 1` from the calculator:
`NaN` falls back to `1`, and — because `0` is falsy in JavaScript — a parsed
quantity of `0` also falls back to `1`. -/
def qtyOf (s : String) : ℤ :=
  match parseIntJs s with
  | none => 1
  | some n => if n = 0 then 1 else n

/-- Model of JavaScript `Number.prototype.toFixed(2)`: round to the nearest
hundredth, ties towards the larger value, and format with two decimals. -/
def toFixed2 (x : ℚ) : String :=
  let n : ℤ := ⌊x * 100 + 1 / 2⌋
  let sign := if n < 0 then "-" else ""
  let a := n.natAbs
  let frac := a % 100
  let fracStr := if frac < 10 then "0" ++ toString frac else toString frac
  sign ++ toString (a / 100) ++ "." ++ fracStr

/-- Source `TAX_RATE = 9.125` (percent) from the calculator source. -/
def TAX_RATE : ℚ := 9.125

/-- Source `taxRate = TAX_RATE / 100` from the calculator source. -/
def taxRate : ℚ := TAX_RATE / 100

/-- Source `calculateMargin` from the calculator source:
zero for a non-positive sale price, else profit as a percentage of price. -/
def calculateMargin (salePrice landingCost : ℚ) : ℚ :=
  if salePrice ≤ 0 then 0
  else (salePrice - landingCost) / salePrice * 100

/-- Source `priceForMargin` from the calculator source: the sale price needed to hit
a target margin.  The division is written exactly as in the source, with no
guard on `targetMarginPercent = 100`. -/
def priceForMargin (landingCost targetMarginPercent : ℚ) : ℚ :=
  let margin := targetMarginPercent / 100
  landingCost / (1 - margin)

/-- Source `getMarginColor` from the calculator source. -/
def getMarginColor (margin : ℚ) : String :=
  if 50 ≤ margin then "#2e7d32"
  else if 47 ≤ margin then "#f57c00"
  else "#c62828"

/-- Source `getMarginLabel` from the calculator source. -/
def getMarginLabel (margin : ℚ) : String :=
  if 50 ≤ margin then "✓ Great"
  else if 47 ≤ margin then "⚠️ OK"
  else "✗ Too Low"

/-- The three calculator modes (`'quote'`, `'margin'`, `'otd'`). -/
inductive Mode
  | quote
  | margin
  | otd
deriving DecidableEq

/-- Whether the raw price field holds a sale price or a tag price
(`priceType` setting, `'sale'` or `'tag'`). -/
inductive PriceType
  | sale
  | tag
deriving DecidableEq

/-- One line item of the form state.  Fields mirror the React state:
price-like fields are the raw strings of the inputs, `originalPrice` is
`none` for JavaScript `undefined`. -/
structure Item where
  id : Nat
  name : String
  price : String
  qty : String
  landingCost : String
  marginSet : Bool
  selectedMargin : Option ℚ
  originalPrice : Option String
deriving DecidableEq

/-- The deal-level settings of the form state. -/
structure Settings where
  mode : Mode
  salePercent : ℚ
  noTaxPromo : Bool
  priceType : PriceType
  delivery : String
  otdPrice : String
deriving DecidableEq

/-- Source `discount = salePercent / 100` from the calculator source. -/
def discountOf (s : Settings) : ℚ := s.salePercent / 100

/-- The ternary `priceType === 'sale' ? rawPrice : rawPrice * (1 - discount)`
that appears in every branch of the price resolution. -/
def discounted (s : Settings) (rawPrice : ℚ) : ℚ :=
  match s.priceType with
  | PriceType.sale => rawPrice
  | PriceType.tag => rawPrice * (1 - discountOf s)

/-- The mode-dependent price resolution of `calculatedItems`: given the
settings, the item's `marginSet` flag and its parsed raw price, produce
`(salePrice, invoicePrice, quotePrice)` exactly as the branches of the
source assign them. -/
def resolvePrices (s : Settings) (marginSet : Bool) (rawPrice : ℚ) : ℚ × ℚ × ℚ :=
  match s.mode with
  | Mode.quote =>
    if s.noTaxPromo then
      let quotePrice := discounted s rawPrice
      let invoicePrice := quotePrice / (1 + taxRate)
      (invoicePrice, invoicePrice, quotePrice)
    else
      let salePrice := discounted s rawPrice
      (salePrice, salePrice, salePrice * (1 + taxRate))
  | Mode.margin =>
    if marginSet ∧ 0 < rawPrice then
      (rawPrice, rawPrice, rawPrice * (1 + taxRate))
    else if 0 < rawPrice ∧ s.noTaxPromo then
      let quotePrice := discounted s rawPrice
      let invoicePrice := quotePrice / (1 + taxRate)
      (invoicePrice, invoicePrice, quotePrice)
    else
      let salePrice := discounted s rawPrice
      (salePrice, salePrice, if 0 < salePrice then salePrice * (1 + taxRate) else 0)
  | Mode.otd =>
    let salePrice := discounted s rawPrice
    (salePrice, salePrice, salePrice * (1 + taxRate))

/-- The per-item outputs computed inside the `items.map` of the source. -/
structure CalcItem where
  salePrice : ℚ
  invoicePrice : ℚ
  quotePrice : ℚ
  lineTotal : ℚ
  qty : ℤ
  landingCost : ℚ
  totalLandingCost : ℚ
  margin : Option ℚ
  profitPerUnit : Option ℚ
  totalProfit : Option ℚ
  priceAt50 : Option ℚ
  priceAt49 : Option ℚ
  priceAt48 : Option ℚ
  priceAt47 : Option ℚ
deriving DecidableEq

/-- The body of the `items.map` in `calculatedItems`: parse the raw fields,
resolve the prices for the current mode, and derive the per-item outputs. -/
def computeItem (s : Settings) (item : Item) : CalcItem :=
  let rawPrice := parseMoney item.price
  let qty : ℤ := qtyOf item.qty
  let landingCost := parseMoney item.landingCost
  let p := resolvePrices s item.marginSet rawPrice
  let invoicePrice := p.2.1
  { salePrice := invoicePrice
    invoicePrice := invoicePrice
    quotePrice := p.2.2
    lineTotal := invoicePrice * (qty : ℚ)
    qty := qty
    landingCost := landingCost
    totalLandingCost := landingCost * (qty : ℚ)
    margin :=
      if 0 < landingCost ∧ 0 < invoicePrice then some (calculateMargin invoicePrice landingCost)
      else none
    profitPerUnit :=
      if 0 < landingCost ∧ 0 < invoicePrice then some (invoicePrice - landingCost) else none
    totalProfit :=
      if 0 < landingCost ∧ 0 < invoicePrice then some ((invoicePrice - landingCost) * (qty : ℚ))
      else none
    priceAt50 := if 0 < landingCost then some (priceForMargin landingCost 50) else none
    priceAt49 := if 0 < landingCost then some (priceForMargin landingCost 49) else none
    priceAt48 := if 0 < landingCost then some (priceForMargin landingCost 48) else none
    priceAt47 := if 0 < landingCost then some (priceForMargin landingCost 47) else none }

/-- Source `calculatedItems`: map every form item through `computeItem` and drop the
rows failing `item.lineTotal > 0 || item.landingCost > 0`. -/
def calculatedItems (s : Settings) (items : List Item) : List CalcItem :=
  (items.map (computeItem s)).filter
    (fun c => decide (0 < c.lineTotal) || decide (0 < c.landingCost))

/-- Source `subtotal`: the invoice subtotal, a left fold like the source's `reduce`. -/
def dealSubtotal (s : Settings) (items : List Item) : ℚ :=
  (calculatedItems s items).foldl (fun sum c => sum + c.lineTotal) 0

/-- Source `totalLandingCost` over the aggregated items. -/
def dealTotalLandingCost (s : Settings) (items : List Item) : ℚ :=
  (calculatedItems s items).foldl (fun sum c => sum + c.totalLandingCost) 0

/-- Source `totalProfit` over the aggregated items (`null` contributions count 0). -/
def dealTotalProfit (s : Settings) (items : List Item) : ℚ :=
  (calculatedItems s items).foldl (fun sum c => sum + c.totalProfit.getD 0) 0

/-- Source `overallMargin`: defined only when both subtotal and landing are positive. -/
def overallMargin (s : Settings) (items : List Item) : Option ℚ :=
  if 0 < dealSubtotal s items ∧ 0 < dealTotalLandingCost s items then
    some (calculateMargin (dealSubtotal s items) (dealTotalLandingCost s items))
  else none

/-- Source `deliveryAmount = parseMoney(delivery)`. -/
def deliveryAmount (s : Settings) : ℚ := parseMoney s.delivery

/-- Source `deliveryTax = deliveryAmount * taxRate`. -/
def deliveryTax (s : Settings) : ℚ := deliveryAmount s * taxRate

/-- Source `taxOnMerchandise = subtotal * taxRate`. -/
def taxOnMerchandise (s : Settings) (items : List Item) : ℚ :=
  dealSubtotal s items * taxRate

/-- Source `quoteSubtotal`: sum of `quotePrice * qty` over the aggregated items
(computed in the quote/no-tax branch of the source). -/
def quoteSubtotal (s : Settings) (items : List Item) : ℚ :=
  (calculatedItems s items).foldl (fun sum c => sum + c.quotePrice * (c.qty : ℚ)) 0

/-- Source `customerTotal`: the deal-level total shown to the customer, branching on
`mode === 'quote' && noTaxPromo` exactly as the source does. -/
def customerTotal (s : Settings) (items : List Item) : ℚ :=
  if s.mode = Mode.quote ∧ s.noTaxPromo then
    quoteSubtotal s items + deliveryAmount s + deliveryTax s
  else
    dealSubtotal s items + taxOnMerchandise s items + deliveryAmount s + deliveryTax s

/-- Source `otdAmount = parseMoney(otdPrice)`. -/
def otdAmount (s : Settings) : ℚ := parseMoney s.otdPrice

/-- Source `otdDeliveryWithTax = deliveryAmount + deliveryTax`. -/
def otdDeliveryWithTax (s : Settings) : ℚ := deliveryAmount s + deliveryTax s

/-- Source `otdMerchandiseWithTax = otdAmount - otdDeliveryWithTax`. -/
def otdMerchandiseWithTax (s : Settings) : ℚ := otdAmount s - otdDeliveryWithTax s

/-- Source `otdSalePrice = otdMerchandiseWithTax / (1 + taxRate)`. -/
def otdSalePrice (s : Settings) : ℚ := otdMerchandiseWithTax s / (1 + taxRate)

/-- Source `otdMerchandiseTax = otdMerchandiseWithTax - otdSalePrice`. -/
def otdMerchandiseTax (s : Settings) : ℚ := otdMerchandiseWithTax s - otdSalePrice s

/-- Source `otdMargin`: defined only when the total landing cost is positive. -/
def otdMargin (s : Settings) (items : List Item) : Option ℚ :=
  if 0 < dealTotalLandingCost s items then
    some (calculateMargin (otdSalePrice s) (dealTotalLandingCost s items))
  else none

/-- Source `otdProfit = otdSalePrice - totalLandingCost`. -/
def otdProfit (s : Settings) (items : List Item) : ℚ :=
  otdSalePrice s - dealTotalLandingCost s items

/-- The per-item action of `setItemToMargin` (the body of its `items.map`):
on the matching id with positive landing cost, a second click on the selected
margin restores the stored original price, otherwise the price is set to the
target-margin invoice price and the original price is remembered. -/
def applyMarginClick (itemId : Nat) (targetMargin : ℚ) (item : Item) : Item :=
  if item.id = itemId then
    let landingCost := parseMoney item.landingCost
    if 0 < landingCost then
      if item.selectedMargin = some targetMargin ∧ item.originalPrice ≠ none then
        { item with
            price := item.originalPrice.getD ""
            marginSet := false
            selectedMargin := none
            originalPrice := none }
      else
        let originalPrice := if item.marginSet then item.originalPrice else some item.price
        { item with
            price := toFixed2 (priceForMargin landingCost targetMargin)
            marginSet := true
            selectedMargin := some targetMargin
            originalPrice := originalPrice }
    else item
  else item

/-- Source `setItemToMargin`: map the click over the item list. -/
def setItemToMargin (items : List Item) (itemId : Nat) (targetMargin : ℚ) : List Item :=
  items.map (applyMarginClick itemId targetMargin)

namespace TestCalc

/-- Source `TAX_RATE = 0.09125` from `tests/fixtures/test-data.js`. -/
def TAX_RATE : ℚ := 0.09125

/-- Source `calculateMargin` from `tests/helpers/utils/calculations.js`. -/
def calculateMargin (salePrice landingCost : ℚ) : ℚ :=
  if salePrice = 0 then 0 else (salePrice - landingCost) / salePrice * 100

/-- Source `priceForMargin` from `tests/helpers/utils/calculations.js`. -/
def priceForMargin (landingCost targetMargin : ℚ) : ℚ :=
  let marginDecimal := targetMargin / 100
  landingCost / (1 - marginDecimal)

/-- Source `backOutTax` from `tests/helpers/utils/calculations.js`. -/
def backOutTax (priceWithTax : ℚ) : ℚ := priceWithTax / (1 + TAX_RATE)

/-- Source `addTax` from `tests/helpers/utils/calculations.js`. -/
def addTax (price : ℚ) : ℚ := price * (1 + TAX_RATE)

/-- Source `calculateProfit` from `tests/helpers/utils/calculations.js`. -/
def calculateProfit (salePrice landingCost : ℚ) : ℚ := salePrice - landingCost

end TestCalc

/-- Badge band of the specification. -/
inductive Band
  | great
  | ok
  | tooLow
deriving DecidableEq

/-- Modelled from the spec: the badge classification bands — `margin ≥ 50`
is Great, `47 ≤ margin < 50` is OK, `margin < 47` is Too Low, each band
inclusive on its lower bound. -/
def specBand (margin : ℚ) : Band :=
  if 50 ≤ margin then Band.great
  else if 47 ≤ margin ∧ margin < 50 then Band.ok
  else Band.tooLow

/-- The badge color associated to each spec band. -/
def specBandColor : Band → String
  | Band.great => "#2e7d32"
  | Band.ok => "#f57c00"
  | Band.tooLow => "#c62828"

/-- The badge label associated to each spec band. -/
def specBandLabel : Band → String
  | Band.great => "✓ Great"
  | Band.ok => "⚠️ OK"
  | Band.tooLow => "✗ Too Low"

/-- Error signal named by the spec for a margin target of 100. -/
inductive MarginError
  | invalidMarginTarget
deriving DecidableEq

/-- Modelled from the spec: a guarded `priceForMargin` that signals
`InvalidMarginTarget` at a target of exactly 100 instead of dividing. -/
def specPriceForMarginGuarded (landingCost targetMargin : ℚ) :
    Except MarginError ℚ :=
  if targetMargin = 100 then Except.error MarginError.invalidMarginTarget
  else Except.ok (landingCost / (1 - targetMargin / 100))

/-! ### Helper lemmas -/

/-- The two tax-rate constants of the code agree: `9.125 / 100 = 0.09125`. -/
lemma taxRate_eq : taxRate = TestCalc.TAX_RATE := by
  norm_num [taxRate, TAX_RATE, TestCalc.TAX_RATE]

lemma one_add_taxRate_pos : (0 : ℚ) < 1 + taxRate := by
  norm_num [taxRate, TAX_RATE]

lemma foldl_add_eq_sum {α : Type} (f : α → ℚ) (l : List α) (a : ℚ) :
    l.foldl (fun sum c => sum + f c) a = a + (l.map f).sum := by
  induction l generalizing a with
  | nil => simp
  | cons hd tl ih => simp [ih, add_assoc]

lemma dealSubtotal_eq_sum (s : Settings) (items : List Item) :
    dealSubtotal s items = ((calculatedItems s items).map (fun c => c.lineTotal)).sum := by
  unfold dealSubtotal
  simpa using foldl_add_eq_sum (fun c => c.lineTotal) (calculatedItems s items) 0

lemma quoteSubtotal_eq_sum (s : Settings) (items : List Item) :
    quoteSubtotal s items =
      ((calculatedItems s items).map (fun c => c.quotePrice * (c.qty : ℚ))).sum := by
  unfold quoteSubtotal
  simpa using foldl_add_eq_sum (fun c => c.quotePrice * (c.qty : ℚ)) (calculatedItems s items) 0

/-! ### Claim theorems -/

/-- Claim C3: for every landing cost `L > 0` and target margin `m < 100`,
`calculateMargin (priceForMargin L m) L = m` — the two margin primitives are
mutual inverses, exactly over the rational arithmetic. -/
theorem margin_price_roundtrip (L m : ℚ) (hL : 0 < L) (hm : m < 100) :
    calculateMargin (priceForMargin L m) L = m := by
  have hden : 0 < 1 - m / 100 := by
    have h : m / 100 < 1 := (div_lt_one (by norm_num)).mpr hm
    linarith
  have hp : 0 < priceForMargin L m := by
    unfold priceForMargin
    exact div_pos hL hden
  have hLne : L ≠ 0 := ne_of_gt hL
  have h100 : (100 : ℚ) - m ≠ 0 := ne_of_gt (by linarith)
  unfold calculateMargin
  rw [if_neg (not_le.mpr hp)]
  unfold priceForMargin
  field_simp
  ring

/-- Witness for C3 at `L = 600`, `m = 50`: the target price is 1200 and its
margin is 50. -/
theorem margin_price_roundtrip_check :
    (0 : ℚ) < 600 ∧ (50 : ℚ) < 100 ∧ calculateMargin (priceForMargin 600 50) 600 = 50 :=
  ⟨by norm_num, by norm_num, margin_price_roundtrip 600 50 (by norm_num) (by norm_num)⟩

/-- Claim C4: for every amount `x`, `backOutTax (addTax x) = x` with the fixed
constant `TAX_RATE = 0.09125` — exact over the rational arithmetic (so in
particular within one cent after any rounding at the display boundary). -/
theorem tax_roundtrip (x : ℚ) : TestCalc.backOutTax (TestCalc.addTax x) = x := by
  have h : (1 + TestCalc.TAX_RATE) ≠ 0 := by norm_num [TestCalc.TAX_RATE]
  unfold TestCalc.backOutTax TestCalc.addTax
  field_simp

/-- Claim C5: the badge classification of the code agrees with the spec bands
for every margin value: `≥ 50` is Great/green, `47 ≤ m < 50` is OK/orange,
`< 47` is Too Low/red, each lower bound inclusive; in particular 47 is
orange, 50 is green and 46.99 is red. -/
theorem badge_classification_matches_spec (m : ℚ) :
    (getMarginColor m = specBandColor (specBand m) ∧
      getMarginLabel m = specBandLabel (specBand m)) ∧
    getMarginColor 47 = "#f57c00" ∧ getMarginLabel 47 = "⚠️ OK" ∧
    getMarginColor 50 = "#2e7d32" ∧ getMarginLabel 50 = "✓ Great" ∧
    getMarginColor (46.99 : ℚ) = "#c62828" ∧ getMarginLabel (46.99 : ℚ) = "✗ Too Low" := by
  refine ⟨?_, ?_, ?_, ?_, ?_, ?_, ?_⟩
  · unfold getMarginColor getMarginLabel specBand
    split_ifs with h1 h2 h3 h4 <;> simp_all [specBandColor, specBandLabel]
  all_goals norm_num [getMarginColor, getMarginLabel]

/-- Counterexample for claim C7: `priceForMargin` performs its division with
no guard — at a landing cost of 600 and a target of exactly 100 the divisor
`1 - 100/100` vanishes and the function still returns a (junk) number, while
the guarded function demanded by the claim signals `InvalidMarginTarget`;
the two disagree at this input. -/
theorem priceForMargin_unguarded_at_100 :
    (1 - (100 : ℚ) / 100) = 0 ∧
    priceForMargin 600 100 = 600 / 0 ∧
    specPriceForMarginGuarded 600 100 = Except.error MarginError.invalidMarginTarget ∧
    (Except.ok (priceForMargin 600 100) : Except MarginError ℚ) ≠
      specPriceForMarginGuarded 600 100 := by
  refine ⟨by norm_num, by norm_num [priceForMargin], by norm_num [specPriceForMarginGuarded], ?_⟩
  simp [specPriceForMarginGuarded]

/-- Claim C7 (amended): the divisor of `priceForMargin` is nonzero on every
supported target (47, 48, 49 or 50), the division is then well defined
(`priceForMargin L m * (1 - m/100) = L`), and on those targets the unguarded
source function agrees with the guarded one of the spec. -/
theorem priceForMargin_supported_targets (L m : ℚ)
    (hm : m = 47 ∨ m = 48 ∨ m = 49 ∨ m = 50) :
    1 - m / 100 ≠ 0 ∧
    priceForMargin L m * (1 - m / 100) = L ∧
    specPriceForMarginGuarded L m = Except.ok (priceForMargin L m) := by
  have hne : 1 - m / 100 ≠ 0 := by rcases hm with h | h | h | h <;> subst h <;> norm_num
  have h100 : m ≠ 100 := by rcases hm with h | h | h | h <;> subst h <;> norm_num
  refine ⟨hne, ?_, ?_⟩
  · unfold priceForMargin
    exact div_mul_cancel₀ L hne
  · unfold specPriceForMarginGuarded priceForMargin
    rw [if_neg h100]

/-- Witness for the amended C7 at `L = 600`, `m = 50`. -/
theorem priceForMargin_supported_targets_check :
    ((50 : ℚ) = 47 ∨ (50 : ℚ) = 48 ∨ (50 : ℚ) = 49 ∨ (50 : ℚ) = 50) ∧
    (1 - (50 : ℚ) / 100 ≠ 0 ∧
      priceForMargin 600 50 * (1 - (50 : ℚ) / 100) = 600 ∧
      specPriceForMarginGuarded 600 50 = Except.ok (priceForMargin 600 50)) :=
  ⟨by norm_num, priceForMargin_supported_targets 600 50 (by norm_num)⟩

/-- Claim C1: for every list of line items and settings, the customer total
is: in quote mode with the no-tax promo on, the sum of `quotePrice × qty`
over the aggregated items plus delivery fee plus delivery tax (merchandise
tax is not added again); in every other combination, the invoice subtotal
plus merchandise tax (`subtotal × TAX_RATE`) plus delivery fee plus delivery
tax (`deliveryFee × TAX_RATE`), with `TAX_RATE = 0.09125`. -/
theorem customerTotal_formula (s : Settings) (items : List Item) :
    customerTotal s items =
      if s.mode = Mode.quote ∧ s.noTaxPromo then
        ((calculatedItems s items).map (fun c => c.quotePrice * (c.qty : ℚ))).sum
          + deliveryAmount s + deliveryAmount s * TestCalc.TAX_RATE
      else
        ((calculatedItems s items).map (fun c => c.lineTotal)).sum
          + ((calculatedItems s items).map (fun c => c.lineTotal)).sum * TestCalc.TAX_RATE
          + deliveryAmount s + deliveryAmount s * TestCalc.TAX_RATE := by
  unfold customerTotal taxOnMerchandise deliveryTax
  rw [taxRate_eq, dealSubtotal_eq_sum, quoteSubtotal_eq_sum]

/-- Claim C2: the OTD back-calculation is a total function of the inputs —
`otdSalePrice = backOutTax (offer − deliveryFee − deliveryFee × TAX_RATE)`,
`otdProfit = otdSalePrice − totalLandingCost`, and the margin is
`calculateMargin otdSalePrice totalLandingCost` when the total landing cost
is positive and `none` (unavailable, not an error) otherwise; the sale price
may be negative (witnessed by a 100 offer against a 135 delivery fee). -/
theorem otd_back_calculation (s : Settings) (items : List Item) :
    otdSalePrice s =
      TestCalc.backOutTax (otdAmount s - deliveryAmount s - deliveryAmount s * TestCalc.TAX_RATE) ∧
    otdProfit s items = otdSalePrice s - dealTotalLandingCost s items ∧
    otdMargin s items =
      (if 0 < dealTotalLandingCost s items then
        some (calculateMargin (otdSalePrice s) (dealTotalLandingCost s items))
      else none) ∧
    otdSalePrice ⟨Mode.otd, 30, true, PriceType.sale, "135", "100"⟩ < 0 := by
  refine ⟨?_, rfl, rfl, ?_⟩
  · unfold otdSalePrice otdMerchandiseWithTax otdDeliveryWithTax deliveryTax TestCalc.backOutTax
    rw [taxRate_eq]
    ring_nf
  · rw [show otdSalePrice ⟨Mode.otd, 30, true, PriceType.sale, "135", "100"⟩ =
        (parseMoney "100" - (parseMoney "135" + parseMoney "135" * taxRate)) / (1 + taxRate)
      from rfl]
    rw [show parseMoney "100" = ((100 : ℤ) : ℚ) / (10 : ℚ) ^ (0 : ℕ) from rfl]
    rw [show parseMoney "135" = ((135 : ℤ) : ℚ) / (10 : ℚ) ^ (0 : ℕ) from rfl]
    norm_num [taxRate, TAX_RATE]

/-- Claim C6: on an item with positive landing cost and no margin target
currently selected, clicking the same margin target twice restores the price
field to its pre-click value and clears `marginSet`, `selectedMargin` and
`originalPrice` — the double click is the identity on the item, and hence on
the singleton list through `setItemToMargin`. -/
theorem margin_toggle_restores_price (it : Item) (m : ℚ)
    (hms : it.marginSet = false) (hsel : it.selectedMargin = none)
    (hop : it.originalPrice = none) (hlc : 0 < parseMoney it.landingCost) :
    applyMarginClick it.id m (applyMarginClick it.id m it) = it ∧
    setItemToMargin (setItemToMargin [it] it.id m) it.id m = [it] := by
  obtain ⟨iid, iname, iprice, iqty, ilc, ims, isel, iop⟩ := it
  simp only at hms hsel hop hlc
  subst hms
  subst hsel
  subst hop
  have h : applyMarginClick iid m (applyMarginClick iid m
      ⟨iid, iname, iprice, iqty, ilc, false, none, none⟩) =
      ⟨iid, iname, iprice, iqty, ilc, false, none, none⟩ := by
    unfold applyMarginClick
    simp [hlc]
  exact ⟨h, by simp [setItemToMargin, h]⟩

/-- Witness for C6: a sofa row priced at 840 with landing cost 500 and no
margin target selected; clicking the 50% target twice is the identity. -/
theorem margin_toggle_restores_price_check :
    ((⟨1, "Sofa", "840", "1", "500", false, none, none⟩ : Item).marginSet = false) ∧
    ((⟨1, "Sofa", "840", "1", "500", false, none, none⟩ : Item).selectedMargin = none) ∧
    ((⟨1, "Sofa", "840", "1", "500", false, none, none⟩ : Item).originalPrice = none) ∧
    0 < parseMoney (⟨1, "Sofa", "840", "1", "500", false, none, none⟩ : Item).landingCost ∧
    (applyMarginClick 1 50 (applyMarginClick 1 50 ⟨1, "Sofa", "840", "1", "500", false, none, none⟩) =
      ⟨1, "Sofa", "840", "1", "500", false, none, none⟩ ∧
    setItemToMargin (setItemToMargin [⟨1, "Sofa", "840", "1", "500", false, none, none⟩] 1 50) 1 50 =
      [(⟨1, "Sofa", "840", "1", "500", false, none, none⟩ : Item)]) := by
  have hlc : 0 < parseMoney (⟨1, "Sofa", "840", "1", "500", false, none, none⟩ : Item).landingCost := by
    rw [show parseMoney "500" = ((500 : ℤ) : ℚ) / (10 : ℚ) ^ (0 : ℕ) from rfl]
    norm_num
  exact ⟨rfl, rfl, rfl, hlc,
    margin_toggle_restores_price ⟨1, "Sofa", "840", "1", "500", false, none, none⟩ 50 rfl rfl rfl hlc⟩

/-- Claim C10: clicking any margin target on an item whose landing cost
parses to a non-positive value is a no-op: the item itself is unchanged in
every field, any item with a different id is unchanged, and the whole list
comes back equal through `setItemToMargin`. -/
theorem margin_click_nonpositive_landing_noop (it other : Item) (m : ℚ)
    (hl : parseMoney it.landingCost ≤ 0) (hid : other.id ≠ it.id) :
    applyMarginClick it.id m it = it ∧
    applyMarginClick it.id m other = other ∧
    setItemToMargin [it, other] it.id m = [it, other] := by
  have hneg : ¬ 0 < parseMoney it.landingCost := not_lt.mpr hl
  have h1 : applyMarginClick it.id m it = it := by
    unfold applyMarginClick
    simp [hneg]
  have h2 : applyMarginClick it.id m other = other := by
    unfold applyMarginClick
    simp [hid]
  exact ⟨h1, h2, by simp [setItemToMargin, h1, h2]⟩

/-- Witness for C10: an item with landing cost `"0"` and a second item with a
different id; the click changes nothing. -/
theorem margin_click_nonpositive_landing_noop_check :
    parseMoney (⟨1, "", "250", "1", "0", false, none, none⟩ : Item).landingCost ≤ 0 ∧
    (⟨2, "", "90", "1", "40", false, none, none⟩ : Item).id ≠
      (⟨1, "", "250", "1", "0", false, none, none⟩ : Item).id ∧
    (applyMarginClick 1 50 ⟨1, "", "250", "1", "0", false, none, none⟩ =
      (⟨1, "", "250", "1", "0", false, none, none⟩ : Item) ∧
    applyMarginClick 1 50 ⟨2, "", "90", "1", "40", false, none, none⟩ =
      (⟨2, "", "90", "1", "40", false, none, none⟩ : Item) ∧
    setItemToMargin [⟨1, "", "250", "1", "0", false, none, none⟩,
        ⟨2, "", "90", "1", "40", false, none, none⟩] 1 50 =
      [(⟨1, "", "250", "1", "0", false, none, none⟩ : Item),
        ⟨2, "", "90", "1", "40", false, none, none⟩]) := by
  have hl : parseMoney (⟨1, "", "250", "1", "0", false, none, none⟩ : Item).landingCost ≤ 0 := by
    rw [show parseMoney "0" = ((0 : ℤ) : ℚ) / (10 : ℚ) ^ (0 : ℕ) from rfl]
    norm_num
  have hid : (⟨2, "", "90", "1", "40", false, none, none⟩ : Item).id ≠
      (⟨1, "", "250", "1", "0", false, none, none⟩ : Item).id := by decide
  exact ⟨hl, hid,
    margin_click_nonpositive_landing_noop ⟨1, "", "250", "1", "0", false, none, none⟩
      ⟨2, "", "90", "1", "40", false, none, none⟩ 50 hl hid⟩

lemma discounted_nonneg (s : Settings) (raw : ℚ) (h0 : 0 ≤ raw)
    (hd1 : s.salePercent ≤ 100) : 0 ≤ discounted s raw := by
  unfold discounted discountOf
  cases s.priceType with
  | sale => exact h0
  | tag =>
    have h : s.salePercent / 100 ≤ 1 := (div_le_one (by norm_num)).mpr hd1
    exact mul_nonneg h0 (by linarith)

lemma resolvePrices_invoice_nonneg (s : Settings) (ms : Bool) (raw : ℚ)
    (h0 : 0 ≤ raw) (hd1 : s.salePercent ≤ 100) :
    0 ≤ (resolvePrices s ms raw).2.1 := by
  have hdisc := discounted_nonneg s raw h0 hd1
  have htax := one_add_taxRate_pos
  unfold resolvePrices
  cases s.mode with
  | quote =>
    dsimp only
    split_ifs
    · exact div_nonneg hdisc htax.le
    · exact hdisc
  | margin =>
    dsimp only
    split_ifs with hA hB h3
    · exact le_of_lt hA.2
    · exact div_nonneg hdisc htax.le
    · exact hdisc
    · exact hdisc
  | otd =>
    dsimp only
    exact hdisc

lemma computeItem_lineTotal_nonneg (s : Settings) (it : Item)
    (hd1 : s.salePercent ≤ 100) (hp : 0 ≤ parseMoney it.price)
    (hq : 0 ≤ qtyOf it.qty) :
    0 ≤ (computeItem s it).lineTotal := by
  have hinv := resolvePrices_invoice_nonneg s it.marginSet (parseMoney it.price) hp hd1
  show 0 ≤ (resolvePrices s it.marginSet (parseMoney it.price)).2.1 * ((qtyOf it.qty : ℤ) : ℚ)
  exact mul_nonneg hinv (by exact_mod_cast hq)

lemma computeItem_landingCost_eq (s : Settings) (it : Item) :
    (computeItem s it).landingCost = parseMoney it.landingCost := rfl

/-- Claim C9: for every line item of the data model (non-negative parsed
price, quantity and landing cost, discount at most 100%), the computed row is
kept by the aggregation filter exactly when it is not a fully empty row — it
is a member of `calculatedItems` iff not both `lineTotal = 0` and
`landingCost = 0`. -/
theorem aggregation_filter_iff (s : Settings) (items : List Item) (it : Item)
    (hd1 : s.salePercent ≤ 100) (hp : 0 ≤ parseMoney it.price)
    (hq : 0 ≤ qtyOf it.qty) (hl : 0 ≤ parseMoney it.landingCost)
    (hmem : it ∈ items) :
    computeItem s it ∈ calculatedItems s items ↔
      ¬((computeItem s it).lineTotal = 0 ∧ (computeItem s it).landingCost = 0) := by
  have hlt := computeItem_lineTotal_nonneg s it hd1 hp hq
  have hlc : 0 ≤ (computeItem s it).landingCost := by
    rw [computeItem_landingCost_eq]
    exact hl
  unfold calculatedItems
  rw [List.mem_filter]
  constructor
  · rintro ⟨-, hpred⟩ ⟨h1, h2⟩
    simp only [Bool.or_eq_true, decide_eq_true_eq] at hpred
    rcases hpred with h | h
    · rw [h1] at h
      exact lt_irrefl 0 h
    · rw [h2] at h
      exact lt_irrefl 0 h
  · intro hne
    refine ⟨List.mem_map_of_mem _ hmem, ?_⟩
    simp only [Bool.or_eq_true, decide_eq_true_eq]
    by_contra hcon
    push_neg at hcon
    exact hne ⟨le_antisymm hcon.1 hlt, le_antisymm hcon.2 hlc⟩

/-- Witness for C9: a margin-check row priced 100 with landing cost 50 is a
member of the aggregated items, and the filter criterion is exactly
"not a fully empty row". -/
theorem aggregation_filter_iff_check :
    ((⟨Mode.margin, 30, false, PriceType.sale, "135", ""⟩ : Settings).salePercent ≤ 100) ∧
    0 ≤ parseMoney (⟨1, "", "100", "1", "50", false, none, none⟩ : Item).price ∧
    0 ≤ qtyOf (⟨1, "", "100", "1", "50", false, none, none⟩ : Item).qty ∧
    0 ≤ parseMoney (⟨1, "", "100", "1", "50", false, none, none⟩ : Item).landingCost ∧
    (⟨1, "", "100", "1", "50", false, none, none⟩ : Item) ∈
      [(⟨1, "", "100", "1", "50", false, none, none⟩ : Item)] ∧
    (computeItem ⟨Mode.margin, 30, false, PriceType.sale, "135", ""⟩
        ⟨1, "", "100", "1", "50", false, none, none⟩ ∈
      calculatedItems ⟨Mode.margin, 30, false, PriceType.sale, "135", ""⟩
        [⟨1, "", "100", "1", "50", false, none, none⟩] ↔
      ¬((computeItem ⟨Mode.margin, 30, false, PriceType.sale, "135", ""⟩
            ⟨1, "", "100", "1", "50", false, none, none⟩).lineTotal = 0 ∧
        (computeItem ⟨Mode.margin, 30, false, PriceType.sale, "135", ""⟩
            ⟨1, "", "100", "1", "50", false, none, none⟩).landingCost = 0)) := by
  have hp : 0 ≤ parseMoney "100" := by
    rw [show parseMoney "100" = ((100 : ℤ) : ℚ) / (10 : ℚ) ^ (0 : ℕ) from rfl]
    norm_num
  have hl : 0 ≤ parseMoney "50" := by
    rw [show parseMoney "50" = ((50 : ℤ) : ℚ) / (10 : ℚ) ^ (0 : ℕ) from rfl]
    norm_num
  exact ⟨by norm_num, hp, by decide, hl, by simp,
    aggregation_filter_iff ⟨Mode.margin, 30, false, PriceType.sale, "135", ""⟩
      [⟨1, "", "100", "1", "50", false, none, none⟩]
      ⟨1, "", "100", "1", "50", false, none, none⟩
      (by norm_num) hp (by decide) hl (by simp)⟩

/-- Claim C8 is contradicted by the code: the quantity field `"0"` is coerced
to `1` by `parseInt(item.qty) || 1` (zero is falsy in JavaScript), so a row
priced 1000 with landing cost 500 and quantity 0 gets `lineTotal = 1000 × 1`
and `totalLandingCost = 500 × 1` instead of the zeros the claim requires. -/
theorem qty_zero_coerced_to_one :
    qtyOf "0" = 1 ∧
    (computeItem ⟨Mode.margin, 30, false, PriceType.sale, "135", ""⟩
        ⟨1, "", "1000", "0", "500", false, none, none⟩).qty = 1 ∧
    (computeItem ⟨Mode.margin, 30, false, PriceType.sale, "135", ""⟩
        ⟨1, "", "1000", "0", "500", false, none, none⟩).lineTotal = 1000 ∧
    (computeItem ⟨Mode.margin, 30, false, PriceType.sale, "135", ""⟩
        ⟨1, "", "1000", "0", "500", false, none, none⟩).totalLandingCost = 500 := by
  refine ⟨by decide, by decide, ?_, ?_⟩
  · show (resolvePrices ⟨Mode.margin, 30, false, PriceType.sale, "135", ""⟩ false
        (parseMoney "1000")).2.1 * ((qtyOf "0" : ℤ) : ℚ) = 1000
    rw [show (resolvePrices ⟨Mode.margin, 30, false, PriceType.sale, "135", ""⟩ false
        (parseMoney "1000")).2.1 = parseMoney "1000" from by
      simp [resolvePrices, discounted]]
    rw [show qtyOf "0" = 1 from by decide]
    rw [show parseMoney "1000" = ((1000 : ℤ) : ℚ) / (10 : ℚ) ^ (0 : ℕ) from rfl]
    norm_num
  · show parseMoney "500" * ((qtyOf "0" : ℤ) : ℚ) = 500
    rw [show qtyOf "0" = 1 from by decide]
    rw [show parseMoney "500" = ((500 : ℤ) : ℚ) / (10 : ℚ) ^ (0 : ℕ) from rfl]
    norm_num
